import Mathlib

/-!
# Seeker `internal/cdxprops/cdxtest`: the container fixture

A shallow embedding of `docker.go` (`NewContainer`, `Container.ID`,
`Container.ImageID`, `Container.Cleanup`) and the properties of its
construction and teardown paths.

The container engine is external to the package.  It is embedded as a record of
state-passing operations (`Runtime σ`), one per call the package makes, each
returning either a normal Go result or a panic payload together with the next
engine state.  Every call the package issues is recorded, with its arguments and
its outcome, in a trace.

Go's `defer` / `recover` are embedded explicitly: a function body produces a
`Frame` (named result, pending panic, engine state, trace), each deferred
function is a `Frame → Frame` transformer applied in LIFO order, and the frame
left at the end decides whether the function returns or the panic escapes.
-/

namespace Cdxtest

/-! ## Go error values -/

/-- Go `error` values as built in this package: an error received from outside
(or made by `fmt.Errorf` without `%w`), an error made by `fmt.Errorf` with a
trailing `%w` verb, and the value of `errors.Join`. -/
inductive GoError where
  | leaf (msg : String)
  | wrap (pre : String) (cause : GoError)
  | join (errs : List GoError)

namespace GoError

mutual
/-- Decision procedure for equality of errors. -/
def decEq : (a b : GoError) → Decidable (a = b)
  | leaf m, leaf n =>
    if h : m = n then isTrue (by rw [h]) else isFalse (fun hab => h (by cases hab; rfl))
  | leaf _, wrap _ _ => isFalse (fun hab => by cases hab)
  | leaf _, join _ => isFalse (fun hab => by cases hab)
  | wrap _ _, leaf _ => isFalse (fun hab => by cases hab)
  | wrap p c, wrap q d =>
    if h : p = q then
      match decEq c d with
      | isTrue hc => isTrue (by rw [h, hc])
      | isFalse hc => isFalse (fun hab => hc (by cases hab; rfl))
    else isFalse (fun hab => h (by cases hab; rfl))
  | wrap _ _, join _ => isFalse (fun hab => by cases hab)
  | join _, leaf _ => isFalse (fun hab => by cases hab)
  | join _, wrap _ _ => isFalse (fun hab => by cases hab)
  | join xs, join ys =>
    match decEqList xs ys with
    | isTrue hxs => isTrue (by rw [hxs])
    | isFalse hxs => isFalse (fun hab => hxs (by cases hab; rfl))
/-- Decision procedure for equality of lists of errors. -/
def decEqList : (xs ys : List GoError) → Decidable (xs = ys)
  | [], [] => isTrue rfl
  | [], _ :: _ => isFalse (fun hab => by cases hab)
  | _ :: _, [] => isFalse (fun hab => by cases hab)
  | x :: xs, y :: ys =>
    match decEq x y with
    | isTrue hx =>
      match decEqList xs ys with
      | isTrue hxs => isTrue (by rw [hx, hxs])
      | isFalse hxs => isFalse (fun hab => hxs (by cases hab; rfl))
    | isFalse hx => isFalse (fun hab => hx (by cases hab; rfl))
end

instance : DecidableEq GoError := decEq

mutual
/-- The `Error()` method. A `%w` error prints the formatted text before the verb
followed by the cause; a joined error prints its members separated by newlines. -/
def Error : GoError → String
  | leaf msg => msg
  | wrap pre cause => pre ++ cause.Error
  | join errs => ErrorLines errs
/-- Messages of the members of a joined error, newline separated. -/
def ErrorLines : List GoError → String
  | [] => ""
  | [e] => e.Error
  | e :: es => e.Error ++ "\n" ++ ErrorLines es
end

/-- The `Unwrap() error` method of a `%w` error (nil for the other shapes). -/
def Unwrap : GoError → Option GoError
  | wrap _ cause => some cause
  | _ => none

/-- The `Unwrap() []error` method of a joined error. -/
def UnwrapAll : GoError → List GoError
  | join errs => errs
  | _ => []

end GoError

deriving instance DecidableEq for Except

/-- Go `errors.Join`: nil operands are discarded, and the result is nil when
nothing is left. -/
def Join (errs : List (Option GoError)) : Option GoError :=
  match errs.reduceOption with
  | [] => none
  | e :: es => some (GoError.join (e :: es))

/-- Substring test on messages (`strings.Contains`). -/
def Contains (s sub : String) : Prop := sub.data <:+: s.data

instance (s sub : String) : Decidable (Contains s sub) := by
  unfold Contains; infer_instance

/-! ## Panics and call outcomes -/

/-- The value carried by a Go panic, split the way the type switch in `Cleanup`
splits it: a `string`, an `error`, or any other value (kept as its `%v`
rendering, which is all that `Cleanup` uses of it). -/
inductive Payload where
  | str (x : String)
  | error (x : GoError)
  | other (rendered : String)
  deriving DecidableEq

/-- Text of a panic payload as the `%s` / `%w` / `%v` verbs print it. -/
def Payload.render : Payload → String
  | .str x => x
  | .error x => x.Error
  | .other x => x

/-- Outcome of a call: it returns a value or it panics. -/
inductive Res (α : Type) where
  | ret (a : α)
  | panicked (r : Payload)
  deriving DecidableEq

/-- The runtime error raised by dereferencing a nil pointer or calling a method
on a nil interface. It implements `error`. -/
def nilDeref : Payload :=
  .error (.leaf "runtime error: invalid memory address or nil pointer dereference")

/-! ## Data of the container engine client -/

/-- A started container as handed out by `testcontainers.GenericContainer`. -/
structure Handle where
  ref : String
  deriving DecidableEq, Repr

/-- A connection to the daemon (`*client.Client`). -/
structure Client where
  host : String
  deriving DecidableEq, Repr

/-- Fields of `container.InspectResponse` read by the package. -/
structure InspectResponse where
  ID : String
  Image : String
  Name : String
  deriving DecidableEq, Repr

/-- The `image.RemoveOptions` argument. -/
structure RemoveOptions where
  Force : Bool
  PruneChildren : Bool
  deriving DecidableEq, Repr

/-- Wait strategies; only `wait.ForExit()` is used. -/
inductive WaitStrategy where
  | unset
  | ForExit
  deriving DecidableEq, Repr

/-- The `testcontainers.GenericContainerRequest` built by `NewContainer`. -/
structure GenericContainerRequest where
  Context : String
  Dockerfile : String
  WaitingFor : WaitStrategy
  Started : Bool
  deriving DecidableEq, Repr

/-- Options given to `client.NewClientWithOpts`. -/
structure ClientOpts where
  Host : String
  APIVersionNegotiation : Bool
  deriving DecidableEq, Repr

/-- The container engine as seen by the package: one state-passing operation per
external call. A Go `(v, err)` result is an `Except`, a lone `error` result an
`Option`. -/
structure Runtime (σ : Type) where
  GenericContainer : GenericContainerRequest → σ → Res (Except GoError Handle) × σ
  Inspect : Handle → σ → Res (Except GoError InspectResponse) × σ
  Terminate : Handle → σ → Res (Option GoError) × σ
  MustExtractDockerSocket : σ → Res String × σ
  NewClientWithOpts : ClientOpts → σ → Res (Except GoError Client) × σ
  ImageRemove : Client → String → RemoveOptions → σ → Res (Option GoError) × σ
  Close : Client → σ → Res (Option GoError) × σ

/-- One external call issued by the package, with its arguments and outcome
(`warn` is the `slog.WarnContext` record). -/
inductive Event where
  | genericContainer (req : GenericContainerRequest) (out : Res (Except GoError Handle))
  | inspect (h : Handle) (out : Res (Except GoError InspectResponse))
  | terminate (h : Handle) (out : Res (Option GoError))
  | extractSocket (out : Res String)
  | newClient (opts : ClientOpts) (out : Res (Except GoError Client))
  | imageRemove (cli : Client) (imageID : String) (opts : RemoveOptions)
      (out : Res (Option GoError))
  | close (cli : Client) (out : Res (Option GoError))
  | warn (msg : String) (e : GoError)
  deriving DecidableEq

/-! ## The fixture -/

/-- The `Container` struct. Both fields are nilable in Go (an interface and a
pointer); `Container{}` has both nil. -/
structure Container where
  container : Option Handle
  info : Option InspectResponse
  deriving DecidableEq

/-- The zero value `Container{}`. -/
def Container.zero : Container := ⟨none, none⟩

/-- Go `filepath.Split` on a slash-separated path: everything up to and
including the final slash, and what follows it. -/
def Split (path : String) : String × String :=
  let file := (path.data.reverse.takeWhile (fun ch => ch != '/')).reverse
  (String.mk (path.data.take (path.data.length - file.length)), String.mk file)

/-- Result of running a function of the package: what the caller observes
(a normal return or an escaping panic), the engine state, and the calls made. -/
structure Run (σ α : Type) where
  result : Res α
  state : σ
  trace : List Event
  deriving DecidableEq

/-- The request `NewContainer` builds from its `path` argument. -/
def request (path : String) : GenericContainerRequest :=
  { Context := (Split path).1, Dockerfile := (Split path).2,
    WaitingFor := .ForExit, Started := true }

/-- `NewContainer(ctx, path)`. -/
def NewContainer {σ : Type} (rt : Runtime σ) (path : String) (s : σ) :
    Run σ (Container × Option GoError) :=
  let req := request path
  match rt.GenericContainer req s with
  | (.panicked r, s1) => ⟨.panicked r, s1, [.genericContainer req (.panicked r)]⟩
  | (.ret (.error e), s1) =>
    ⟨.ret (Container.zero, some (.wrap "starting generic container: " e)), s1,
      [.genericContainer req (.ret (.error e))]⟩
  | (.ret (.ok c), s1) =>
    match rt.Inspect c s1 with
    | (.panicked r, s2) =>
      ⟨.panicked r, s2, [.genericContainer req (.ret (.ok c)), .inspect c (.panicked r)]⟩
    | (.ret (.error e), s2) =>
      match rt.Terminate c s2 with
      | (.panicked r, s3) =>
        ⟨.panicked r, s3,
          [.genericContainer req (.ret (.ok c)), .inspect c (.ret (.error e)),
            .terminate c (.panicked r)]⟩
      | (.ret t, s3) =>
        ⟨.ret (Container.zero, some (.wrap "inspecting container: " e)), s3,
          [.genericContainer req (.ret (.ok c)), .inspect c (.ret (.error e)),
            .terminate c (.ret t)]⟩
    | (.ret (.ok info), s2) =>
      ⟨.ret (⟨some c, some info⟩, none), s2,
        [.genericContainer req (.ret (.ok c)), .inspect c (.ret (.ok info))]⟩

/-- `Container.ID()`: `c.info.ID`. -/
def Container.ID (c : Container) : Res String :=
  match c.info with
  | none => .panicked nilDeref
  | some i => .ret i.ID

/-- `Container.ImageID()`: `c.info.Image`. -/
def Container.ImageID (c : Container) : Res String :=
  match c.info with
  | none => .panicked nilDeref
  | some i => .ret i.Image

/-! ## Teardown -/

/-- State of a running `Cleanup` call: the named result `err`, the panic in
flight (if any), the engine state, the calls made so far, and the receiver. -/
structure Frame (σ : Type) where
  err : Option GoError
  panicking : Option Payload
  state : σ
  trace : List Event
  receiver : Container

/-- The error built from a recovered panic value (the type switch of the first
deferred function). -/
def panicError : Payload → GoError
  | .str x => .leaf ("panic: " ++ x)
  | .error x => .wrap "panic: " x
  | .other x => .leaf ("panic: " ++ x)

/-- The first deferred function of `Cleanup`: when a panic is in flight,
`recover` stops it and the error made from it is joined onto `err`. -/
def deferRecover {σ : Type} (f : Frame σ) : Frame σ :=
  match f.panicking with
  | none => f
  | some r => { f with err := Join [f.err, some (panicError r)], panicking := none }

/-- The second deferred function of `Cleanup`: `err = cli.Close()`, with a
warning logged when the result is non-nil. A panic of `Close` leaves `err`
untouched and becomes the panic in flight. -/
def deferClose {σ : Type} (rt : Runtime σ) (cli : Client) (f : Frame σ) : Frame σ :=
  match rt.Close cli f.state with
  | (.panicked r, s) =>
    { f with panicking := some r, state := s, trace := f.trace ++ [.close cli (.panicked r)] }
  | (.ret none, s) =>
    { f with err := none, state := s, trace := f.trace ++ [.close cli (.ret none)] }
  | (.ret (some e), s) =>
    { f with err := some e, state := s,
             trace := f.trace ++ [.close cli (.ret (some e)),
               .warn "can't close testcontainers docker client" e] }

/-- The image removal statement of `Cleanup` and the `return` that follows it,
run once the connection `cli` exists. -/
def removeImage {σ : Type} (rt : Runtime σ) (c : Container) (cli : Client)
    (s : σ) (tr : List Event) : Frame σ :=
  match c.info with
  | none => ⟨none, some nilDeref, s, tr, c⟩
  | some info =>
    let opts : RemoveOptions := { Force := true, PruneChildren := true }
    match rt.ImageRemove cli info.ID opts s with
    | (.panicked r, s1) =>
      ⟨none, some r, s1, tr ++ [.imageRemove cli info.ID opts (.panicked r)], c⟩
    | (.ret (some e), s1) =>
      ⟨some (.wrap ("removing image " ++ info.Name ++ "(" ++ info.ID ++ "): ") e), none, s1,
        tr ++ [.imageRemove cli info.ID opts (.ret (some e))], c⟩
    | (.ret none, s1) =>
      ⟨none, none, s1, tr ++ [.imageRemove cli info.ID opts (.ret none)], c⟩

/-- The body of `Cleanup` together with the deferred close, which is registered
only once the connection was made. -/
def cleanupBody {σ : Type} (rt : Runtime σ) (c : Container) (s : σ) : Frame σ :=
  match c.container with
  | none => ⟨none, some nilDeref, s, [], c⟩
  | some h =>
    match rt.Terminate h s with
    | (.panicked r, s1) => ⟨none, some r, s1, [.terminate h (.panicked r)], c⟩
    | (.ret (some e), s1) =>
      ⟨some (.wrap "terminating container: " e), none, s1, [.terminate h (.ret (some e))], c⟩
    | (.ret none, s1) =>
      match rt.MustExtractDockerSocket s1 with
      | (.panicked r, s2) =>
        ⟨none, some r, s2, [.terminate h (.ret none), .extractSocket (.panicked r)], c⟩
      | (.ret socket, s2) =>
        let opts : ClientOpts := { Host := "unix://" ++ socket, APIVersionNegotiation := true }
        match rt.NewClientWithOpts opts s2 with
        | (.panicked r, s3) =>
          ⟨none, some r, s3,
            [.terminate h (.ret none), .extractSocket (.ret socket),
              .newClient opts (.panicked r)], c⟩
        | (.ret (.error e), s3) =>
          ⟨some (.wrap ("creating docker client from socket " ++ socket ++ ": ") e), none, s3,
            [.terminate h (.ret none), .extractSocket (.ret socket),
              .newClient opts (.ret (.error e))], c⟩
        | (.ret (.ok cli), s3) =>
          deferClose rt cli
            (removeImage rt c cli s3
              [.terminate h (.ret none), .extractSocket (.ret socket),
                .newClient opts (.ret (.ok cli))])

/-- What the caller of `Cleanup` gets: the outcome, the engine state, the calls
made, and the receiver as it stands afterwards. -/
structure CleanupRun (σ : Type) where
  result : Res (Option GoError)
  state : σ
  trace : List Event
  receiver : Container
  deriving DecidableEq

/-- Leaving the function: a panic still in flight escapes, otherwise the named
result is returned. -/
def Frame.leave {σ : Type} (f : Frame σ) : CleanupRun σ :=
  { result := match f.panicking with
      | some r => .panicked r
      | none => .ret f.err
    state := f.state, trace := f.trace, receiver := f.receiver }

/-- `Container.Cleanup(ctx)`. -/
def Cleanup {σ : Type} (rt : Runtime σ) (c : Container) (s : σ) : CleanupRun σ :=
  (deferRecover (cleanupBody rt c s)).leave

/-! ## Concrete engines -/

/-- A fixed outcome for each external call. -/
structure Script where
  genericContainer : Res (Except GoError Handle)
  inspect : Res (Except GoError InspectResponse)
  terminate : Res (Option GoError)
  socket : Res String
  newClient : Res (Except GoError Client)
  imageRemove : Res (Option GoError)
  close : Res (Option GoError)

/-- The stateless engine that answers every call as the script says. -/
def scripted (k : Script) : Runtime Unit where
  GenericContainer _ s := (k.genericContainer, s)
  Inspect _ s := (k.inspect, s)
  Terminate _ s := (k.terminate, s)
  MustExtractDockerSocket s := (k.socket, s)
  NewClientWithOpts _ s := (k.newClient, s)
  ImageRemove _ _ _ s := (k.imageRemove, s)
  Close _ s := (k.close, s)

/-- A script in which every call succeeds. -/
def allGood : Script where
  genericContainer := .ret (.ok ⟨"c1"⟩)
  inspect := .ret (.ok ⟨"c1", "i1", "/fixture"⟩)
  terminate := .ret none
  socket := .ret "/var/run/docker.sock"
  newClient := .ret (.ok ⟨"unix:///var/run/docker.sock"⟩)
  imageRemove := .ret none
  close := .ret none

/-- A fixture as `NewContainer` builds it under `allGood`. -/
def fixture : Container := ⟨some ⟨"c1"⟩, some ⟨"c1", "i1", "/fixture"⟩⟩

/-- The daemon reduced to what the lifecycle test observes of it: a set of
containers and a set of images. -/
structure Daemon where
  containers : List InspectResponse
  images : List String
  deriving DecidableEq

/-- Daemon lookup of a container identifier. -/
def Daemon.ContainerInspect (d : Daemon) (id : String) : Except GoError InspectResponse :=
  match d.containers.find? (fun i => i.ID == id) with
  | some i => .ok i
  | none => .error (.leaf ("no such container: " ++ id))

/-- Daemon lookup of an image identifier. -/
def Daemon.ImageInspect (d : Daemon) (id : String) : Except GoError String :=
  if id ∈ d.images then .ok id else .error (.leaf ("no such image: " ++ id))

/-- The engine over `Daemon`: building adds one image and one container started
from it; terminating a handle removes that handle's container and, as the
library does for a container it built from a recipe, the image built for it;
removing an image removes exactly the image with the given identifier and fails
when there is none; no call panics. -/
def daemonRuntime : Runtime Daemon where
  GenericContainer req d :=
    (.ret (.ok ⟨"ctr:" ++ req.Dockerfile⟩),
      { containers :=
          ⟨"ctr:" ++ req.Dockerfile, "img:" ++ req.Dockerfile, "/" ++ req.Dockerfile⟩
            :: d.containers,
        images := ("img:" ++ req.Dockerfile) :: d.images })
  Inspect h d :=
    (.ret (d.ContainerInspect h.ref), d)
  Terminate h d :=
    (.ret none,
      { containers := d.containers.filter (fun i => i.ID != h.ref),
        images := d.images.filter
          (fun img => !(d.containers.any (fun i => i.ID == h.ref && i.Image == img))) })
  MustExtractDockerSocket d := (.ret "/var/run/docker.sock", d)
  NewClientWithOpts opts d := (.ret (.ok ⟨opts.Host⟩), d)
  ImageRemove _ id _ d :=
    if id ∈ d.images then (.ret none, { d with images := d.images.filter (fun i => i != id) })
    else (.ret (some (.leaf ("no such image: " ++ id))), d)
  Close _ d := (.ret none, d)

/-! ## Observers of a trace -/

/-- The connections closed, in order. -/
def closeCalls : List Event → List Client
  | [] => []
  | .close cli _ :: es => cli :: closeCalls es
  | _ :: es => closeCalls es

/-- The connections opened, in order. -/
def openedClients : List Event → List Client
  | [] => []
  | .newClient _ (.ret (.ok cli)) :: es => cli :: openedClients es
  | _ :: es => openedClients es

/-- The handles on which terminate was called, in order. -/
def terminateCalls : List Event → List Handle
  | [] => []
  | .terminate h _ :: es => h :: terminateCalls es
  | _ :: es => terminateCalls es

/-- The image removals requested: identifier and options, in order. -/
def imageRemoveCalls : List Event → List (String × RemoveOptions)
  | [] => []
  | .imageRemove _ id opts _ :: es => (id, opts) :: imageRemoveCalls es
  | _ :: es => imageRemoveCalls es

/-- The panic raised by a call, if it raised one. -/
def Event.fault : Event → Option Payload
  | .genericContainer _ (.panicked r) => some r
  | .inspect _ (.panicked r) => some r
  | .terminate _ (.panicked r) => some r
  | .extractSocket (.panicked r) => some r
  | .newClient _ (.panicked r) => some r
  | .imageRemove _ _ _ (.panicked r) => some r
  | .close _ (.panicked r) => some r
  | _ => none

/-- The panics raised by the calls of a trace, in order. -/
def faults (tr : List Event) : List Payload := tr.filterMap Event.fault

/-! ## Inputs used to exercise the definitions -/

/-- A script in which the build and start succeed and inspection fails. -/
def inspectFails : Script :=
  { allGood with inspect := .ret (.error (.leaf "daemon unreachable")),
                 terminate := .ret (some (.leaf "already gone")) }

/-- A script in which the image removal panics with a string. -/
def removePanics : Script :=
  { allGood with imageRemove := .panicked (.str "connection reset") }

/-- A script in which the image removal returns an error and the close panics
with an error value. -/
def removeFailsClosePanics : Script :=
  { allGood with imageRemove := .ret (some (.leaf "image is in use")),
                 close := .panicked (.error (.leaf "use of closed connection")) }

/-- A script in which only the image removal fails, by returning an error. -/
def removeFails : Script :=
  { allGood with imageRemove := .ret (some (.leaf "image is in use")) }

/-- A script in which only the close fails, by returning an error. -/
def closeFails : Script :=
  { allGood with close := .ret (some (.leaf "close failed")) }

/-- A script in which the image removal and the close both return an error. -/
def removeAndCloseFail : Script :=
  { allGood with imageRemove := .ret (some (.leaf "image is in use")),
                 close := .ret (some (.leaf "close failed")) }

/-- A daemon that already holds an unrelated container and its image. -/
def busyDaemon : Daemon :=
  ⟨[⟨"ctr:other", "img:busybox", "/other"⟩], ["img:busybox"]⟩

/-- The fixture `NewContainer` builds from the recipe `/tmp/x/Dockerfile` on the
daemon model. -/
def daemonFixture : Container :=
  ⟨some ⟨"ctr:Dockerfile"⟩, some ⟨"ctr:Dockerfile", "img:Dockerfile", "/Dockerfile"⟩⟩

/-- A script in which the image removal panics and the deferred close then
panics too. -/
def removeAndClosePanic : Script :=
  { allGood with imageRemove := .panicked (.str "first"),
                 close := .panicked (.str "second") }

/-! # Properties -/

/-! ## Teardown: termination failure -/

/-- C5: when the terminate call of `Cleanup` returns an error `e`, terminate is
the only external call made (no socket lookup, no connection, no image removal,
no close), the engine is left as terminate left it, and `Cleanup` returns a
non-nil error that wraps `e` behind the text "terminating container: ". -/
theorem Cleanup_terminate_error {σ : Type} (rt : Runtime σ) (c : Container) (s s1 : σ)
    (h : Handle) (e : GoError)
    (hc : c.container = some h) (ht : rt.Terminate h s = (.ret (some e), s1)) :
    (Cleanup rt c s).trace = [.terminate h (.ret (some e))] ∧
    (Cleanup rt c s).state = s1 ∧
    ∃ err, (Cleanup rt c s).result = .ret (some err) ∧
      err = .wrap "terminating container: " e ∧
      err.Unwrap = some e ∧
      err.Error = "terminating container: " ++ e.Error := by
  simp [Cleanup, cleanupBody, hc, ht, deferRecover, Frame.leave, GoError.Unwrap, GoError.Error]

/-- Witness for `Cleanup_terminate_error`: the engine whose terminate call
returns "container is busy". -/
theorem Cleanup_terminate_error_witness :
    (Cleanup (scripted { allGood with terminate := .ret (some (.leaf "container is busy")) })
        fixture ()).trace = [.terminate ⟨"c1"⟩ (.ret (some (.leaf "container is busy")))] ∧
    (Cleanup (scripted { allGood with terminate := .ret (some (.leaf "container is busy")) })
        fixture ()).state = () ∧
    ∃ err, (Cleanup (scripted { allGood with terminate := .ret (some (.leaf "container is busy")) })
        fixture ()).result = .ret (some err) ∧
      err = .wrap "terminating container: " (.leaf "container is busy") ∧
      err.Unwrap = some (.leaf "container is busy") ∧
      err.Error = "terminating container: " ++ (GoError.leaf "container is busy").Error :=
  Cleanup_terminate_error (scripted { allGood with terminate := .ret (some (.leaf "container is busy")) })
    fixture () () ⟨"c1"⟩ (.leaf "container is busy") rfl rfl

/-! ## Construction -/

/-- C7: when build-and-start succeeds with handle `h` and the inspect call then
returns an error `e`, `NewContainer` calls terminate exactly once, on `h`, as
its last external call; it returns the zero `Container` together with the error
that wraps `e` behind the text "inspecting container: "; and that result does
not depend on what the terminate call returned (`t` is arbitrary: nil or an
error). -/
theorem NewContainer_inspect_error {σ : Type} (rt : Runtime σ) (path : String)
    (s s1 s2 s3 : σ) (h : Handle) (e : GoError) (t : Option GoError)
    (hg : rt.GenericContainer (request path) s = (.ret (.ok h), s1))
    (hi : rt.Inspect h s1 = (.ret (.error e), s2))
    (ht : rt.Terminate h s2 = (.ret t, s3)) :
    (NewContainer rt path s).result
        = .ret (Container.zero, some (.wrap "inspecting container: " e)) ∧
    (GoError.wrap "inspecting container: " e).Unwrap = some e ∧
    (GoError.wrap "inspecting container: " e).Error = "inspecting container: " ++ e.Error ∧
    terminateCalls (NewContainer rt path s).trace = [h] ∧
    (NewContainer rt path s).trace.getLast? = some (.terminate h (.ret t)) ∧
    (NewContainer rt path s).state = s3 := by
  simp [NewContainer, hg, hi, ht, terminateCalls, GoError.Unwrap, GoError.Error]

/-- Witness for `NewContainer_inspect_error`: inspection fails with "daemon
unreachable" and the terminate call itself fails with "already gone". -/
theorem NewContainer_inspect_error_witness :
    (NewContainer (scripted inspectFails) "/tmp/x/Dockerfile" ()).result
        = .ret (Container.zero,
            some (.wrap "inspecting container: " (.leaf "daemon unreachable"))) ∧
    (GoError.wrap "inspecting container: " (.leaf "daemon unreachable")).Unwrap
        = some (.leaf "daemon unreachable") ∧
    (GoError.wrap "inspecting container: " (.leaf "daemon unreachable")).Error
        = "inspecting container: " ++ (GoError.leaf "daemon unreachable").Error ∧
    terminateCalls (NewContainer (scripted inspectFails) "/tmp/x/Dockerfile" ()).trace
        = [⟨"c1"⟩] ∧
    (NewContainer (scripted inspectFails) "/tmp/x/Dockerfile" ()).trace.getLast?
        = some (.terminate ⟨"c1"⟩ (.ret (some (.leaf "already gone")))) ∧
    (NewContainer (scripted inspectFails) "/tmp/x/Dockerfile" ()).state = () :=
  NewContainer_inspect_error (scripted inspectFails) "/tmp/x/Dockerfile" () () () ()
    ⟨"c1"⟩ (.leaf "daemon unreachable") (some (.leaf "already gone")) rfl rfl rfl

/-- Every deferred function of `Cleanup` and every step of its body leaves the
receiver as it was. -/
theorem Cleanup_receiver {σ : Type} (rt : Runtime σ) (c : Container) (s : σ) :
    (Cleanup rt c s).receiver = c := by
  have hclose : ∀ (cli : Client) (f : Frame σ), (deferClose rt cli f).receiver = f.receiver := by
    intro cli f
    unfold deferClose
    split <;> rfl
  have hrem : ∀ (cli : Client) (s3 : σ) (tr : List Event),
      (removeImage rt c cli s3 tr).receiver = c := by
    intro cli s3 tr
    unfold removeImage
    split
    · rfl
    · dsimp only
      split <;> rfl
  have hbody : (cleanupBody rt c s).receiver = c := by
    unfold cleanupBody
    split
    · rfl
    · split
      · rfl
      · rfl
      · split
        · rfl
        · dsimp only
          split
          · rfl
          · rfl
          · rw [hclose, hrem]
  have hrec : ∀ f : Frame σ, (deferRecover f).receiver = f.receiver := by
    intro f
    unfold deferRecover
    split <;> rfl
  show (deferRecover (cleanupBody rt c s)).receiver = c
  rw [hrec, hbody]

/-- C8: a fixture returned by a successful `NewContainer` holds the snapshot the
inspect call returned at construction; `ID()` returns that snapshot's container
identifier and `ImageID()` its image identifier; and after `Cleanup`, run
against any engine in any state and whatever it returns, both accessors read the
same values as before. -/
theorem NewContainer_ids_stable {σ : Type} (rt : Runtime σ) (path : String) (s : σ)
    (c : Container) (hnew : (NewContainer rt path s).result = .ret (c, none)) :
    ∃ h info s1 s2,
      rt.GenericContainer (request path) s = (.ret (.ok h), s1) ∧
      rt.Inspect h s1 = (.ret (.ok info), s2) ∧
      c = ⟨some h, some info⟩ ∧
      c.ID = .ret info.ID ∧ c.ImageID = .ret info.Image ∧
      ∀ (τ : Type) (rt2 : Runtime τ) (t : τ),
        (Cleanup rt2 c t).receiver.ID = .ret info.ID ∧
        (Cleanup rt2 c t).receiver.ImageID = .ret info.Image := by
  unfold NewContainer at hnew
  rcases hg : rt.GenericContainer (request path) s with ⟨(_ | h) | r, s1⟩
  · simp [hg] at hnew
  · rcases hi : rt.Inspect h s1 with ⟨(e | info) | r, s2⟩
    · rcases ht : rt.Terminate h s2 with ⟨t | r, s3⟩ <;> simp [hg, hi, ht] at hnew
    · simp [hg, hi] at hnew
      refine ⟨h, info, s1, s2, rfl, hi, hnew.symm, ?_, ?_, ?_⟩
      · rw [← hnew]; rfl
      · rw [← hnew]; rfl
      · intro τ rt2 t
        rw [Cleanup_receiver, ← hnew]
        exact ⟨rfl, rfl⟩
    · simp [hg, hi] at hnew
  · simp [hg] at hnew

/-- Witness for `NewContainer_ids_stable`: the fixture built when every call
succeeds. -/
theorem NewContainer_ids_stable_witness :
    ∃ h info s1 s2,
      (scripted allGood).GenericContainer (request "/tmp/x/Dockerfile") () = (.ret (.ok h), s1) ∧
      (scripted allGood).Inspect h s1 = (.ret (.ok info), s2) ∧
      fixture = ⟨some h, some info⟩ ∧
      fixture.ID = .ret info.ID ∧ fixture.ImageID = .ret info.Image ∧
      ∀ (τ : Type) (rt2 : Runtime τ) (t : τ),
        (Cleanup rt2 fixture t).receiver.ID = .ret info.ID ∧
        (Cleanup rt2 fixture t).receiver.ImageID = .ret info.Image :=
  NewContainer_ids_stable (scripted allGood) "/tmp/x/Dockerfile" () fixture rfl

/-! ## Teardown: faults -/

/-- The message of the error made from a panic is "panic: " followed by the payload. -/
theorem panicError_Error (p : Payload) : (panicError p).Error = "panic: " ++ p.render := by
  cases p <;> rfl

/-- A message contains itself. -/
theorem Contains_self (a : String) : Contains a a := List.infix_refl _

/-- A message contains what it starts with. -/
theorem Contains_append_left (a b : String) : Contains (a ++ b) a := by
  unfold Contains
  rw [String.data_append]
  exact (List.prefix_append _ _).isInfix

/-- A message contains what it ends with. -/
theorem Contains_append_right (a b : String) : Contains (a ++ b) b := by
  unfold Contains
  rw [String.data_append]
  exact (List.suffix_append _ _).isInfix

/-- A join of one error prints as that error. -/
theorem join_one_Error (a : GoError) : (GoError.join [a]).Error = a.Error := by
  simp [GoError.Error, GoError.ErrorLines]

/-- A join of two errors prints them on two lines. -/
theorem join_two_Error (a b : GoError) :
    (GoError.join [a, b]).Error = a.Error ++ "\n" ++ b.Error := by
  simp [GoError.Error, GoError.ErrorLines]

/-- The fault joined onto a pending result shows in the message. -/
theorem Join_fault (e : Option GoError) (p : Payload) :
    ∃ err, Join [e, some (panicError p)] = some err ∧
      panicError p ∈ err.UnwrapAll ∧ Contains err.Error ("panic: " ++ p.render) := by
  cases e with
  | none =>
    refine ⟨.join [panicError p], rfl, by simp [GoError.UnwrapAll], ?_⟩
    rw [join_one_Error, panicError_Error]
    exact Contains_self _
  | some e =>
    refine ⟨.join [e, panicError p], rfl, by simp [GoError.UnwrapAll], ?_⟩
    rw [join_two_Error, panicError_Error]
    exact Contains_append_right _ _

/-- C4, as amended: whenever a step of `Cleanup` (terminate, socket resolution,
connect, remove-image or close) panics, with a payload of any kind, no panic
escapes: `Cleanup` returns normally with a non-nil error, and for the panic `p`
raised last (which is the fault itself whenever only one step panics) that error
has the error made from `p` among its members and its message contains
"panic: " followed by the payload. -/
theorem Cleanup_contains_fault {σ : Type} (rt : Runtime σ) (c : Container) (s : σ) (p : Payload)
    (hp : (faults (Cleanup rt c s).trace).getLast? = some p) :
    ∃ err, (Cleanup rt c s).result = .ret (some err) ∧
      panicError p ∈ err.UnwrapAll ∧
      Contains err.Error ("panic: " ++ p.render) := by
  rcases c with ⟨_ | h, info⟩
  · simp [Cleanup, cleanupBody, deferRecover, Frame.leave, faults] at hp
  · rcases hT : rt.Terminate h s with ⟨(_ | e) | r, s1⟩
    · rcases hS : rt.MustExtractDockerSocket s1 with ⟨sock | r, s2⟩
      · rcases hN : rt.NewClientWithOpts ⟨"unix://" ++ sock, true⟩ s2 with ⟨(e | cli) | r, s3⟩
        · simp [Cleanup, cleanupBody, hT, hS, hN, deferRecover, Frame.leave, faults, Event.fault] at hp
        · rcases info with _ | info
          · rcases hC : rt.Close cli s3 with ⟨(_ | e) | r, s5⟩ <;>
              simp [Cleanup, cleanupBody, removeImage, deferClose, hT, hS, hN, hC, deferRecover,
                Frame.leave, faults, Event.fault] at hp ⊢
            subst hp
            exact Join_fault _ _
          · rcases hR : rt.ImageRemove cli info.ID ⟨true, true⟩ s3 with ⟨(_ | e) | r, s4⟩ <;>
            rcases hC : rt.Close cli s4 with ⟨(_ | e) | r, s5⟩ <;>
              simp [Cleanup, cleanupBody, removeImage, deferClose, hT, hS, hN, hR, hC, deferRecover,
                Frame.leave, faults, Event.fault] at hp ⊢ <;>
              (subst hp; exact Join_fault _ _)
        · simp [Cleanup, cleanupBody, hT, hS, hN, deferRecover, Frame.leave, faults, Event.fault] at hp ⊢
          subst hp
          exact Join_fault _ _
      · simp [Cleanup, cleanupBody, hT, hS, deferRecover, Frame.leave, faults, Event.fault] at hp ⊢
        subst hp
        exact Join_fault _ _
    · simp [Cleanup, cleanupBody, hT, deferRecover, Frame.leave, faults, Event.fault] at hp
    · simp [Cleanup, cleanupBody, hT, deferRecover, Frame.leave, faults, Event.fault] at hp ⊢
      subst hp
      exact Join_fault _ _

/-- Witness for `Cleanup_contains_fault`: the image removal panics with the
string "connection reset". -/
theorem Cleanup_contains_fault_witness :
    ∃ err, (Cleanup (scripted removePanics) fixture ()).result = .ret (some err) ∧
      panicError (.str "connection reset") ∈ err.UnwrapAll ∧
      Contains err.Error ("panic: " ++ (Payload.str "connection reset").render) :=
  Cleanup_contains_fault (scripted removePanics) fixture () (.str "connection reset")
    (by decide)

/-- C4 as stated fails when two steps panic: the remove-image call panics with
"first", the deferred close then panics with "second", and the error `Cleanup`
returns is made from the second panic only; its message does not contain
"panic: first". -/
theorem Cleanup_drops_earlier_fault :
    Event.imageRemove ⟨"unix:///var/run/docker.sock"⟩ "c1" ⟨true, true⟩
        (.panicked (.str "first"))
      ∈ (Cleanup (scripted removeAndClosePanic) fixture ()).trace ∧
    Event.close ⟨"unix:///var/run/docker.sock"⟩ (.panicked (.str "second"))
      ∈ (Cleanup (scripted removeAndClosePanic) fixture ()).trace ∧
    (Cleanup (scripted removeAndClosePanic) fixture ()).result
      = .ret (some (.join [.leaf "panic: second"])) ∧
    ¬ Contains (GoError.join [.leaf "panic: second"]).Error
        ("panic: " ++ (Payload.str "first").render) := by
  decide

/-- C9: in a run of `Cleanup` where a step panics after the value to return was
already set to an error (the remove-image call returned `e`, so the return
statement set the result to `e` wrapped as "removing image ...", and the close
call then panics with `p`), neither is dropped: the returned error is the join
of that pending error and the error made from the panic, the pending error
unwraps to `e`, and the message contains both the pending error's message and
"panic: " followed by the payload. -/
theorem Cleanup_joins_fault_with_pending_error {σ : Type} (rt : Runtime σ) (c : Container)
    (s : σ) (cli : Client) (id : String) (opts : RemoveOptions) (e : GoError) (p : Payload)
    (hr : Event.imageRemove cli id opts (.ret (some e)) ∈ (Cleanup rt c s).trace)
    (hc : Event.close cli (.panicked p) ∈ (Cleanup rt c s).trace) :
    ∃ info pending, c.info = some info ∧
      pending = .wrap ("removing image " ++ info.Name ++ "(" ++ info.ID ++ "): ") e ∧
      pending.Unwrap = some e ∧
      (Cleanup rt c s).result = .ret (some (.join [pending, panicError p])) ∧
      (GoError.join [pending, panicError p]).UnwrapAll = [pending, panicError p] ∧
      Contains (GoError.join [pending, panicError p]).Error pending.Error ∧
      Contains (GoError.join [pending, panicError p]).Error ("panic: " ++ p.render) := by
  have key : ∀ (pending : GoError),
      Contains (GoError.join [pending, panicError p]).Error pending.Error ∧
      Contains (GoError.join [pending, panicError p]).Error ("panic: " ++ p.render) := by
    intro pending
    rw [join_two_Error, panicError_Error]
    refine ⟨?_, Contains_append_right _ _⟩
    rw [String.append_assoc]
    exact Contains_append_left _ _
  rcases c with ⟨_ | h, info⟩
  · simp [Cleanup, cleanupBody, deferRecover, Frame.leave] at hr
  · rcases hT : rt.Terminate h s with ⟨(_ | e1) | r, s1⟩
    · rcases hS : rt.MustExtractDockerSocket s1 with ⟨sock | r, s2⟩
      · rcases hN : rt.NewClientWithOpts ⟨"unix://" ++ sock, true⟩ s2 with ⟨(e1 | cl) | r, s3⟩
        · simp [Cleanup, cleanupBody, hT, hS, hN, deferRecover, Frame.leave] at hr
        · rcases info with _ | info
          · rcases hC : rt.Close cl s3 with ⟨(_ | e2) | r, s5⟩ <;>
              simp [Cleanup, cleanupBody, removeImage, deferClose, hT, hS, hN, hC, deferRecover,
                Frame.leave] at hr
          · rcases hR : rt.ImageRemove cl info.ID ⟨true, true⟩ s3 with ⟨(_ | e1) | r, s4⟩ <;>
            rcases hC : rt.Close cl s4 with ⟨(_ | e2) | r, s5⟩ <;>
              simp [Cleanup, cleanupBody, removeImage, deferClose, hT, hS, hN, hR, hC, deferRecover,
                Frame.leave] at hr hc ⊢
            obtain ⟨-, -, -, rfl⟩ := hr
            obtain ⟨-, rfl⟩ := hc
            exact ⟨rfl, rfl, rfl, key _⟩
        · simp [Cleanup, cleanupBody, hT, hS, hN, deferRecover, Frame.leave] at hr
      · simp [Cleanup, cleanupBody, hT, hS, deferRecover, Frame.leave] at hr
    · simp [Cleanup, cleanupBody, hT, deferRecover, Frame.leave] at hr
    · simp [Cleanup, cleanupBody, hT, deferRecover, Frame.leave] at hr

/-- Witness for `Cleanup_joins_fault_with_pending_error`: the image removal
returns "image is in use" and the close then panics with an error value. -/
theorem Cleanup_joins_fault_with_pending_error_witness :
    ∃ info pending, fixture.info = some info ∧
      pending = .wrap ("removing image " ++ info.Name ++ "(" ++ info.ID ++ "): ")
        (.leaf "image is in use") ∧
      pending.Unwrap = some (.leaf "image is in use") ∧
      (Cleanup (scripted removeFailsClosePanics) fixture ()).result
        = .ret (some (.join [pending, panicError (.error (.leaf "use of closed connection"))])) ∧
      (GoError.join [pending, panicError (.error (.leaf "use of closed connection"))]).UnwrapAll
        = [pending, panicError (.error (.leaf "use of closed connection"))] ∧
      Contains (GoError.join
          [pending, panicError (.error (.leaf "use of closed connection"))]).Error pending.Error ∧
      Contains (GoError.join
          [pending, panicError (.error (.leaf "use of closed connection"))]).Error
        ("panic: " ++ (Payload.error (.leaf "use of closed connection")).render) :=
  Cleanup_joins_fault_with_pending_error (scripted removeFailsClosePanics) fixture ()
    ⟨"unix:///var/run/docker.sock"⟩ "c1" ⟨true, true⟩ (.leaf "image is in use")
    (.error (.leaf "use of closed connection")) (by decide) (by decide)

/-- No panic escapes `Cleanup`, in any run. -/
theorem Cleanup_returns {σ : Type} (rt : Runtime σ) (c : Container) (s : σ) :
    ∃ e, (Cleanup rt c s).result = .ret e := by
  have h : (deferRecover (cleanupBody rt c s)).panicking = none := by
    unfold deferRecover
    split <;> simp_all
  exact ⟨(deferRecover (cleanupBody rt c s)).err, by simp [Cleanup, Frame.leave, h]⟩

/-! ## Teardown: the transient connection -/

/-- C10: in every run of `Cleanup` the connections closed are exactly the
connections opened, at most one. So a connection that was opened is closed
exactly once, whatever the remove-image call did (returned nil, returned an
error, or panicked); and when the terminate call or the connect call did not
succeed, no close call is made. -/
theorem Cleanup_closes_opened_connection {σ : Type} (rt : Runtime σ) (c : Container) (s : σ) :
    closeCalls (Cleanup rt c s).trace = openedClients (Cleanup rt c s).trace ∧
    (openedClients (Cleanup rt c s).trace).length ≤ 1 ∧
    (∀ opts cli, Event.newClient opts (.ret (.ok cli)) ∈ (Cleanup rt c s).trace →
      closeCalls (Cleanup rt c s).trace = [cli]) ∧
    (∀ cli id opts out, Event.imageRemove cli id opts out ∈ (Cleanup rt c s).trace →
      closeCalls (Cleanup rt c s).trace = [cli]) ∧
    (∀ h out, Event.terminate h out ∈ (Cleanup rt c s).trace → out ≠ .ret none →
      closeCalls (Cleanup rt c s).trace = []) ∧
    (∀ opts out, Event.newClient opts out ∈ (Cleanup rt c s).trace →
      (∀ cli, out ≠ .ret (.ok cli)) → closeCalls (Cleanup rt c s).trace = []) := by
  rcases c with ⟨_ | h, info⟩
  · simp [Cleanup, cleanupBody, deferRecover, Frame.leave, closeCalls, openedClients]
  · rcases hT : rt.Terminate h s with ⟨(_ | e) | r, s1⟩
    · rcases hS : rt.MustExtractDockerSocket s1 with ⟨sock | r, s2⟩
      · rcases hN : rt.NewClientWithOpts ⟨"unix://" ++ sock, true⟩ s2 with ⟨(e | cli) | r, s3⟩
        · simp [Cleanup, cleanupBody, hT, hS, hN, deferRecover, Frame.leave, closeCalls,
            openedClients]
        · rcases info with _ | info
          · rcases hC : rt.Close cli s3 with ⟨(_ | e) | r, s5⟩ <;>
              simp [Cleanup, cleanupBody, removeImage, deferClose, hT, hS, hN, hC, deferRecover,
                Frame.leave, closeCalls, openedClients]
          · rcases hR : rt.ImageRemove cli info.ID ⟨true, true⟩ s3 with ⟨(_ | e) | r, s4⟩ <;>
            rcases hC : rt.Close cli s4 with ⟨(_ | e) | r, s5⟩ <;>
              simp [Cleanup, cleanupBody, removeImage, deferClose, hT, hS, hN, hR, hC, deferRecover,
                Frame.leave, closeCalls, openedClients] <;>
              (intros; subst_vars; rfl)
        · simp [Cleanup, cleanupBody, hT, hS, hN, deferRecover, Frame.leave, closeCalls,
            openedClients]
      · simp [Cleanup, cleanupBody, hT, hS, deferRecover, Frame.leave, closeCalls, openedClients]
    · simp [Cleanup, cleanupBody, hT, deferRecover, Frame.leave, closeCalls, openedClients]
    · simp [Cleanup, cleanupBody, hT, deferRecover, Frame.leave, closeCalls, openedClients]

/-- Witness for `Cleanup_closes_opened_connection`: the image removal panics and
the one connection opened is still closed once. -/
theorem Cleanup_closes_opened_connection_witness :
    closeCalls (Cleanup (scripted removePanics) fixture ()).trace
      = [⟨"unix:///var/run/docker.sock"⟩] :=
  (Cleanup_closes_opened_connection (scripted removePanics) fixture ()).2.2.2.1
    ⟨"unix:///var/run/docker.sock"⟩ "c1" ⟨true, true⟩ (.panicked (.str "connection reset"))
    (by decide)

/-! ## Teardown: what the deferred close does to the result -/

/-- C1 at a failing input: the terminate and connect calls succeed, the
remove-image call returns the error "image is in use", the close succeeds, and
`Cleanup` returns nil: the deferred close assigns its own result to the named
result and so discards the wrapped removal error set by the return statement. -/
theorem Cleanup_nil_after_remove_error :
    Event.imageRemove ⟨"unix:///var/run/docker.sock"⟩ "c1" ⟨true, true⟩
        (.ret (some (.leaf "image is in use")))
      ∈ (Cleanup (scripted removeFails) fixture ()).trace ∧
    (Cleanup (scripted removeFails) fixture ()).result = .ret none := by
  decide

/-- C2 at a failing input: with the terminate, connect and remove-image calls
succeeding, `Cleanup` returns nil when the close succeeds and returns the close
error itself when the close fails; and when the image removal and the close both
fail, the close error replaces the removal error. The value returned depends on
the outcome of the close. -/
theorem Cleanup_close_error_is_returned :
    (Cleanup (scripted allGood) fixture ()).result = .ret none ∧
    (Cleanup (scripted closeFails) fixture ()).result = .ret (some (.leaf "close failed")) ∧
    (Cleanup (scripted removeAndCloseFail) fixture ()).result
      = .ret (some (.leaf "close failed")) := by
  decide

/-- C3 at a failing input: for the fixture that `NewContainer` builds from a
snapshot with container identifier "c1" and image identifier "i1", the only
remove-image call of `Cleanup` is made with force and prune-children set but on
the identifier "c1", which is what `ID()` returns, not on "i1", which is what
`ImageID()` returns. -/
theorem Cleanup_removes_by_container_id :
    (NewContainer (scripted allGood) "/tmp/x/Dockerfile" ()).result = .ret (fixture, none) ∧
    fixture.ID = .ret "c1" ∧ fixture.ImageID = .ret "i1" ∧
    imageRemoveCalls (Cleanup (scripted allGood) fixture ()).trace
      = [("c1", { Force := true, PruneChildren := true })] := by
  decide

/-! ## Teardown against the daemon model -/

/-- On the daemon model `NewContainer` always succeeds, with the fixture made of
the container and image it just built. -/
theorem daemon_NewContainer (d : Daemon) (path : String) :
    (NewContainer daemonRuntime path d).result
      = .ret (⟨some ⟨"ctr:" ++ (Split path).2⟩,
          some ⟨"ctr:" ++ (Split path).2, "img:" ++ (Split path).2,
            "/" ++ (Split path).2⟩⟩, none) ∧
    (NewContainer daemonRuntime path d).state
      = ⟨⟨"ctr:" ++ (Split path).2, "img:" ++ (Split path).2, "/" ++ (Split path).2⟩
          :: d.containers, ("img:" ++ (Split path).2) :: d.images⟩ := by
  simp [NewContainer, daemonRuntime, Daemon.ContainerInspect, request]

/-- On the daemon model the state `Cleanup` leaves is the state its terminate
call leaves, with possibly one image less. -/
theorem daemon_Cleanup_state (d : Daemon) (h : Handle) (info : InspectResponse) :
    ((Cleanup daemonRuntime ⟨some h, some info⟩ d).state).containers
      = d.containers.filter (fun i => i.ID != h.ref) ∧
    ∀ img, img ∈ ((Cleanup daemonRuntime ⟨some h, some info⟩ d).state).images →
      img ∈ d.images.filter
        (fun img => !(d.containers.any (fun i => i.ID == h.ref && i.Image == img))) := by
  simp only [Cleanup, cleanupBody, removeImage, deferClose, daemonRuntime, deferRecover,
    Frame.leave]
  split_ifs with hm
  · refine ⟨rfl, ?_⟩
    intro img himg
    exact (List.mem_filter.mp himg).1
  · exact ⟨rfl, fun _ himg => himg⟩

/-- C6: on the daemon model, for every daemon state and every recipe path, if
`NewContainer` returns a fixture without error and `Cleanup` of that fixture
then returns nil, the lookup of the fixture's `ID()` fails with "no such
container" and the lookup of its `ImageID()` fails with "no such image". -/
theorem daemon_Cleanup_removes_fixture (d : Daemon) (path : String) (c : Container)
    (id img : String)
    (hnew : (NewContainer daemonRuntime path d).result = .ret (c, none))
    (hid : c.ID = .ret id) (himg : c.ImageID = .ret img)
    (hnil : (Cleanup daemonRuntime c (NewContainer daemonRuntime path d).state).result
      = .ret none) :
    ((Cleanup daemonRuntime c (NewContainer daemonRuntime path d).state).state).ContainerInspect id
      = .error (.leaf ("no such container: " ++ id)) ∧
    ((Cleanup daemonRuntime c (NewContainer daemonRuntime path d).state).state).ImageInspect img
      = .error (.leaf ("no such image: " ++ img)) := by
  obtain ⟨hres, hst⟩ := daemon_NewContainer d path
  rw [hres] at hnew
  simp only [Res.ret.injEq, Prod.mk.injEq, and_true] at hnew
  subst hnew
  rw [hst]
  simp only [Container.ID, Container.ImageID, Res.ret.injEq] at hid himg
  subst hid himg
  clear hnil hres hst
  generalize (Split path).2 = n
  obtain ⟨hcs, himgs⟩ := daemon_Cleanup_state
    ⟨⟨"ctr:" ++ n, "img:" ++ n, "/" ++ n⟩ :: d.containers, ("img:" ++ n) :: d.images⟩
    ⟨"ctr:" ++ n⟩ ⟨"ctr:" ++ n, "img:" ++ n, "/" ++ n⟩
  constructor
  · have hnone : List.find? (fun i => i.ID == "ctr:" ++ n)
        ((Cleanup daemonRuntime
          ⟨some ⟨"ctr:" ++ n⟩, some ⟨"ctr:" ++ n, "img:" ++ n, "/" ++ n⟩⟩
          ⟨⟨"ctr:" ++ n, "img:" ++ n, "/" ++ n⟩ :: d.containers,
            ("img:" ++ n) :: d.images⟩).state).containers = none := by
      rw [hcs, List.find?_eq_none]
      intro x hx
      have := (List.mem_filter.mp hx).2
      simpa using this
    simp only [Daemon.ContainerInspect, hnone]
  · have hnot : "img:" ++ n ∉ ((Cleanup daemonRuntime
          ⟨some ⟨"ctr:" ++ n⟩, some ⟨"ctr:" ++ n, "img:" ++ n, "/" ++ n⟩⟩
          ⟨⟨"ctr:" ++ n, "img:" ++ n, "/" ++ n⟩ :: d.containers,
            ("img:" ++ n) :: d.images⟩).state).images := by
      intro hmem
      have := (List.mem_filter.mp (himgs _ hmem)).2
      simp at this
    simp only [Daemon.ImageInspect, hnot, if_false]

/-- Witness for `daemon_Cleanup_removes_fixture`: the recipe `/tmp/x/Dockerfile`
built and torn down on a daemon that holds an unrelated container. -/
theorem daemon_Cleanup_removes_fixture_witness :
    ((Cleanup daemonRuntime daemonFixture
        (NewContainer daemonRuntime "/tmp/x/Dockerfile" busyDaemon).state).state).ContainerInspect
        "ctr:Dockerfile"
      = .error (.leaf ("no such container: " ++ "ctr:Dockerfile")) ∧
    ((Cleanup daemonRuntime daemonFixture
        (NewContainer daemonRuntime "/tmp/x/Dockerfile" busyDaemon).state).state).ImageInspect
        "img:Dockerfile"
      = .error (.leaf ("no such image: " ++ "img:Dockerfile")) :=
  daemon_Cleanup_removes_fixture busyDaemon "/tmp/x/Dockerfile" daemonFixture
    "ctr:Dockerfile" "img:Dockerfile" (by decide) (by decide) (by decide) (by decide)

end Cdxtest
